import Mathlib

/-!
Verification of the crawlGTM reconnaissance tool (src/crawl_gtm.py) against its
natural-language specification.  The Python source is shallowly embedded:
pure string-processing functions become Lean functions over `String` / `List Char`,
network interactions are modelled as explicit oracles (lists of pre-fetched
responses), and Python `set`s become deduplicated lists.  All definitions are
executable so that every theorem can be checked on concrete inputs.
-/

namespace CrawlGTM

/-! ## ASCII character classes (Python `str` predicates restricted to ASCII) -/

def isDigitC (c : Char) : Bool := 48 ≤ c.toNat && c.toNat ≤ 57

def isUpperC (c : Char) : Bool := 65 ≤ c.toNat && c.toNat ≤ 90

def isLowerAlphaC (c : Char) : Bool := 97 ≤ c.toNat && c.toNat ≤ 122

def isAlphaC (c : Char) : Bool := isUpperC c || isLowerAlphaC c

def isAlnumC (c : Char) : Bool := isAlphaC c || isDigitC c

def isWordC (c : Char) : Bool := isAlnumC c || c = '_'

/-- Python whitespace for `str.strip` / regex `\s` (ASCII fragment). -/
def isSpaceC (c : Char) : Bool :=
  c = ' ' || c = '\t' || c = '\n' || c = '\x0b' || c = '\x0c' || c = '\r'

/-- ASCII lowercasing, the fragment of Python `str.lower` exercised here. -/
def lowerC (c : Char) : Char :=
  if isUpperC c then Char.ofNat (c.toNat + 32) else c

def lowerChars (cs : List Char) : List Char := cs.map lowerC

def pyLower (s : String) : String := ⟨lowerChars s.data⟩

def pyUpperC (c : Char) : Char :=
  if isLowerAlphaC c then Char.ofNat (c.toNat - 32) else c

/-- ASCII uppercasing, the fragment of Python `str.upper` exercised here. -/
def pyUpper (s : String) : String := ⟨s.data.map pyUpperC⟩

/-- Strip characters satisfying `p` from both ends (Python `str.strip`). -/
def stripCharsBy (p : Char → Bool) (cs : List Char) : List Char :=
  ((cs.dropWhile p).reverse.dropWhile p).reverse

def pyStrip (s : String) : String := ⟨stripCharsBy isSpaceC s.data⟩

def pyStripDots (s : String) : String := ⟨stripCharsBy (fun c => c = '.') s.data⟩

/-! ## List-of-char utilities (substring and splitting, Python semantics) -/

def listStartsWith : List Char → List Char → Bool
  | [], _ => true
  | _ :: _, [] => false
  | a :: as, b :: bs => a = b && listStartsWith as bs

/-- `pat` occurs somewhere inside the second list (Python `in` on strings). -/
def listContainsSub (pat : List Char) : List Char → Bool
  | [] => listStartsWith pat []
  | c :: cs => listStartsWith pat (c :: cs) || listContainsSub pat cs

def substrB (needle hay : String) : Bool := listContainsSub needle.data hay.data

/-- Python `s.split(sep)` for a single-character separator. -/
def splitOnChar (sep : Char) : List Char → List (List Char)
  | [] => [[]]
  | c :: cs =>
    let r := splitOnChar sep cs
    if c = sep then [] :: r
    else
      match r with
      | s :: rest => (c :: s) :: rest
      | [] => [[c]]

def pySplitDot (s : String) : List String :=
  (splitOnChar '.' s.data).map (fun l => (⟨l⟩ : String))

def strStartsWith (pat s : String) : Bool := listStartsWith pat.data s.data

def strEndsWith (pat s : String) : Bool :=
  listStartsWith pat.data.reverse s.data.reverse

/-! ## Domain validity (`GTMAnalyzer._is_valid_domain`, src/crawl_gtm.py:1416) -/

/-- `VALID_TLDS` from src/crawl_gtm.py:69. -/
def VALID_TLDS : List String :=
  ["com", "net", "org", "io", "co", "us", "uk", "de", "fr", "br", "ru",
   "cn", "jp", "in", "au", "ca", "it", "es", "nl", "se", "no", "fi",
   "pl", "cz", "at", "ch", "be", "dk", "pt", "ie", "nz", "za", "mx",
   "ar", "cl", "kr", "tw", "hk", "sg", "my", "th", "ph", "id", "vn",
   "tr", "il", "ae", "sa", "eg", "ng", "ke", "gh", "info", "biz", "xyz",
   "online", "site", "tech", "app", "dev", "cloud", "ai", "me", "tv",
   "cc", "edu", "gov", "mil", "int", "pro", "museum", "aero", "coop",
   "travel", "jobs", "mobi", "cat", "asia", "tel", "name", "ly",
   "gg", "sh", "ms", "to", "fm", "am", "la", "rs", "is", "lt", "lv",
   "ee", "hr", "bg", "ro", "sk", "si", "hu", "ua", "by", "kz", "ge",
   "md", "az", "am", "uz", "tm", "kg", "tj",
   "co.uk", "co.jp", "co.kr", "co.in", "co.za", "co.nz", "co.id",
   "com.br", "com.au", "com.cn", "com.mx", "com.ar", "com.tr", "com.sg",
   "com.hk", "com.tw", "com.ph", "com.my", "com.vn", "com.eg", "com.ng",
   "com.ua", "com.co",
   "org.uk", "org.au", "org.br",
   "net.au", "net.br",
   "ac.uk", "ac.jp", "ac.kr"]

/-- `GTMAnalyzer._FALSE_POSITIVE_TLDS` (src/crawl_gtm.py:1407). -/
def FALSE_POSITIVE_TLDS : List String :=
  ["id", "name", "type", "value", "length", "data", "key", "text"]

/-- The word alternatives of `GTMAnalyzer._FALSE_POSITIVE_PATTERNS`
(src/crawl_gtm.py:1408). -/
def FALSE_POSITIVE_WORDS : List String :=
  ["module", "application", "interaction", "asset", "card", "user", "pageview",
   "marketing", "event", "element", "container", "session", "page", "request",
   "response", "object", "item", "document", "window", "navigator", "location",
   "screen", "history", "cookie", "storage", "click", "scroll", "submit",
   "load", "error", "input", "change", "focus", "blur", "resize"]

/-- Case-insensitive match of the anchored alternation
`(word1|word2|...)` followed by a word boundary, i.e. the semantics of
`_FALSE_POSITIVE_PATTERNS.match(parts[0])` with `re.IGNORECASE`:
some listed word is a prefix of the lowercased input and the next character
(if any) is not a word character. -/
def falsePositiveMatch (s : String) : Bool :=
  FALSE_POSITIVE_WORDS.any (fun w =>
    let cs := lowerChars s.data
    listStartsWith w.data cs &&
      (match cs.drop w.data.length with
       | [] => true
       | c :: _ => !(isWordC c)))

/-- Ambiguous short suffixes from src/crawl_gtm.py:1438. -/
def AMBIGUOUS_SHORT_TLDS : List String :=
  ["co", "io", "me", "to", "is", "am", "it", "at", "no"]

/-- `GTMAnalyzer._is_valid_domain` (src/crawl_gtm.py:1416-1450), line by line:
empty or short strings, dotless strings and digit-or-dot-only (IP-like) strings
are rejected; the last dot-segment must not be a generic JS property name; a
generic first segment is allowed only when the overall TLD is valid and not an
ambiguous two-part short domain; finally the last one or two segments must be a
known public suffix. -/
def is_valid_domain (domain : String) : Bool :=
  if domain.data.length < 4 then false
  else if !(substrB "." domain) then false
  else if domain.data.all (fun c => isDigitC c || c = '.') then false
  else
    let parts := pySplitDot domain
    if parts.length < 2 then false
    else
      let rev := parts.reverse
      let tld := rev.headD ""
      let first := parts.headD ""
      if FALSE_POSITIVE_TLDS.contains tld then false
      else if falsePositiveMatch first &&
          (!(VALID_TLDS.contains tld) ||
            (parts.length = 2 && AMBIGUOUS_SHORT_TLDS.contains tld &&
              first.data.length ≤ 3)) then false
      else if parts.length ≥ 3 &&
          VALID_TLDS.contains ((rev.drop 1).headD "" ++ "." ++ tld) then true
      else VALID_TLDS.contains tld

/-- Claim C1: the domain-validity predicate is a pure, deterministic function of
its input string, and on the four reference inputs it accepts
"tracking.example.com", rejects "user.id", rejects "module.name", and accepts
"application.com". -/
theorem is_valid_domain_deterministic_and_reference_inputs :
    (∀ s t : String, s = t → is_valid_domain s = is_valid_domain t) ∧
    is_valid_domain "tracking.example.com" = true ∧
    is_valid_domain "user.id" = false ∧
    is_valid_domain "module.name" = false ∧
    is_valid_domain "application.com" = true := by
  refine ⟨fun s t h => by rw [h], ?_, ?_, ?_, ?_⟩ <;> decide

/-- Witness for C1: the determinism clause applied at a concrete input, together
with the concrete accept decision there. -/
theorem is_valid_domain_deterministic_witness :
    is_valid_domain "tracking.example.com" =
      is_valid_domain "tracking.example.com" ∧
    is_valid_domain "tracking.example.com" = true :=
  ⟨is_valid_domain_deterministic_and_reference_inputs.1
      "tracking.example.com" "tracking.example.com" rfl,
   is_valid_domain_deterministic_and_reference_inputs.2.1⟩

/-! ## String ordering (Python code-point lexicographic `sorted`) -/

def charListLe : List Char → List Char → Bool
  | [], _ => true
  | _ :: _, [] => false
  | a :: as, b :: bs =>
    if a.toNat < b.toNat then true
    else if b.toNat < a.toNat then false
    else charListLe as bs

def strLe (a b : String) : Bool := charListLe a.data b.data

/-- Python string `<=`: lexicographic comparison by code point. -/
def StrLeR (a b : String) : Prop := strLe a b = true

instance : DecidableRel StrLeR := fun _ _ => instDecidableEqBool _ _

theorem charListLe_total : ∀ as bs : List Char,
    charListLe as bs = true ∨ charListLe bs as = true
  | [], _ => Or.inl rfl
  | _ :: _, [] => Or.inr rfl
  | a :: as, b :: bs => by
    simp only [charListLe]
    rcases Nat.lt_trichotomy a.toNat b.toNat with h | h | h
    · left; rw [if_pos h]
    · rw [if_neg (by omega), if_neg (by omega), if_neg (by omega),
        if_neg (by omega)]
      exact charListLe_total as bs
    · right; rw [if_pos h]

theorem charListLe_trans : ∀ as bs cs : List Char,
    charListLe as bs = true → charListLe bs cs = true → charListLe as cs = true
  | [], _, _ => fun _ _ => rfl
  | _ :: _, [], _ => fun h _ => by simp [charListLe] at h
  | _ :: _, _ :: _, [] => fun _ h => by simp [charListLe] at h
  | a :: as, b :: bs, c :: cs => fun h1 h2 => by
    simp only [charListLe] at h1 h2 ⊢
    rcases Nat.lt_trichotomy a.toNat b.toNat with hab | hab | hab
    · rcases Nat.lt_trichotomy b.toNat c.toNat with hbc | hbc | hbc
      · rw [if_pos (by omega)]
      · rw [if_pos (by omega)]
      · rw [if_neg (by omega), if_pos hbc] at h2
        exact absurd h2 (by decide)
    · rw [if_neg (by omega), if_neg (by omega)] at h1
      rcases Nat.lt_trichotomy b.toNat c.toNat with hbc | hbc | hbc
      · rw [if_pos (by omega)]
      · rw [if_neg (by omega), if_neg (by omega)] at h2 ⊢
        exact charListLe_trans as bs cs h1 h2
      · rw [if_neg (by omega), if_pos hbc] at h2
        exact absurd h2 (by decide)
    · rw [if_neg (by omega), if_pos hab] at h1
      exact absurd h1 (by decide)

instance : IsTotal String StrLeR :=
  ⟨fun a b => charListLe_total a.data b.data⟩

instance : IsTrans String StrLeR :=
  ⟨fun a b c => charListLe_trans a.data b.data c.data⟩

/-- Python `sorted` on a list of strings. -/
def sortStr (l : List String) : List String := List.insertionSort StrLeR l

/-- Python `sorted(set(l))`: unique elements in sorted order. -/
def pySortedSet (l : List String) : List String := sortStr l.dedup

/-- Membership-preserving representation of `list(set_a | set_b)`. -/
def listUnion (a b : List String) : List String :=
  a ++ b.filter (fun x => !(a.contains x))

/-! ## Work-ledger loading (`load_history`, src/crawl_gtm.py:3221-3228) -/

/-- Minimal JSON value universe for the persisted history file. -/
inductive JsonVal where
  | null : JsonVal
  | bool (b : Bool) : JsonVal
  | num (n : Int) : JsonVal
  | str (s : String) : JsonVal
  | arr (xs : List JsonVal) : JsonVal
  | obj (kvs : List (String × JsonVal)) : JsonVal

/-- The possible on-disk states of the history file, as `load_history` can
observe them: the file may be absent (`HISTORY_FILE.exists()` false), reading
it may raise, `json.loads` may raise on malformed text, or parsing succeeds
with some JSON value. -/
inductive HistoryDisk where
  | absent : HistoryDisk
  | unreadable : HistoryDisk
  | malformed (raw : String) : HistoryDisk
  | parsed (v : JsonVal) : HistoryDisk

/-- The fresh default ledger returned by `load_history`. -/
def DEFAULT_HISTORY : JsonVal :=
  .obj [("seen_post_ids", .arr []), ("seen_gtm_ids", .arr []),
        ("runs", .arr []), ("total_domains_found", .num 0)]

/-- `load_history` (src/crawl_gtm.py:3221-3228): if the file exists, try to
parse it, swallowing every exception; otherwise (or on any failure) return the
default ledger. -/
def load_history : HistoryDisk → JsonVal
  | .absent => DEFAULT_HISTORY
  | .unreadable => DEFAULT_HISTORY
  | .malformed _ => DEFAULT_HISTORY
  | .parsed v => v

def jsonLookup (k : String) : JsonVal → Option JsonVal
  | .obj kvs => (kvs.find? (fun kv => kv.1 == k)).map (·.2)
  | _ => none

/-- Claim C10: loading the work ledger is total and crash-safe: on an absent,
unreadable, or malformed history file it returns the fresh default ledger,
whose seen-post set, seen-container set and run list are empty and whose
running domain total is zero. -/
theorem load_history_total_and_default :
    load_history .absent = DEFAULT_HISTORY ∧
    load_history .unreadable = DEFAULT_HISTORY ∧
    (∀ raw, load_history (.malformed raw) = DEFAULT_HISTORY) ∧
    jsonLookup "seen_post_ids" DEFAULT_HISTORY = some (.arr []) ∧
    jsonLookup "seen_gtm_ids" DEFAULT_HISTORY = some (.arr []) ∧
    jsonLookup "runs" DEFAULT_HISTORY = some (.arr []) ∧
    jsonLookup "total_domains_found" DEFAULT_HISTORY = some (.num 0) :=
  ⟨rfl, rfl, fun _ => rfl, rfl, rfl, rfl, rfl⟩

/-! ## Incremental scheduler (`run_scan`, src/crawl_gtm.py:3310-3516) -/

structure RunRecord where
  ts : String
  new_posts : Nat
  new_gtms : Nat
  new_domains : Nat
deriving DecidableEq

/-- The persisted work ledger (`history` dict). -/
structure WorkLedger where
  seen_post_ids : List String
  seen_gtm_ids : List String
  runs : List RunRecord
  total_domains_found : Nat
deriving DecidableEq

/-- A collected post: its identifier and the canonical GTM ids extracted from
its text. -/
structure PostIn where
  pid : String
  gtm_ids : List String
deriving DecidableEq

/-- The data a single scan cycle works from.  Network collection is an oracle:
`posts` are the posts the X collector returns, `direct_gtm_ids` the canonical
ids from the `--gtm` / file / URL-scan / FOFA sources, `deep_found_ids` the
tracking ids found inside the newly analyzed containers, `rev_domains` the
number of reverse-lookup sites attached this cycle. -/
structure ScanInput where
  abortNoSession : Bool
  posts : List PostIn
  direct_gtm_ids : List String
  deep : Bool
  deep_found_ids : List String
  ts : String
  rev_domains : Nat
deriving DecidableEq

/-- The deep-mode linked container ids (src/crawl_gtm.py:3435-3448): tracking
ids of the GTM family found inside newly analyzed containers that are neither
in this cycle's id set nor already seen. -/
def deepLinkedIds (inp : ScanInput) (all_gtm_ids seen_gtms : List String) :
    List String :=
  if inp.deep then
    (inp.deep_found_ids.filter (fun t =>
      strStartsWith "GTM-" t && !(all_gtm_ids.contains t) &&
        !(seen_gtms.contains t))).dedup
  else []

/-- `run_scan` (src/crawl_gtm.py:3310-3516), restricted to its ledger-relevant
data flow.  Returns the updated ledger and the list of container ids passed to
analysis this cycle (the `gtm_list` of line 3430 plus the deep-mode
`sorted(linked_ids)` of line 3446). -/
def run_scan (inp : ScanInput) (h : WorkLedger) : WorkLedger × List String :=
  if inp.abortNoSession then (h, [])
  else
    let seen_posts := h.seen_post_ids
    let seen_gtms := h.seen_gtm_ids
    let fresh_posts := inp.posts.filter (fun p => !(seen_posts.contains p.pid))
    let new_post_ids := fresh_posts.map PostIn.pid
    let all_gtm_ids :=
      ((fresh_posts.flatMap PostIn.gtm_ids) ++ inp.direct_gtm_ids).dedup
    let fresh_gtm_ids := all_gtm_ids.filter (fun g => !(seen_gtms.contains g))
    if fresh_gtm_ids = [] then
      ({ h with
          seen_post_ids := listUnion seen_posts new_post_ids,
          runs := h.runs ++ [⟨inp.ts, new_post_ids.length, 0, 0⟩] }, [])
    else
      let gtm_list := sortStr fresh_gtm_ids
      let linked_ids := deepLinkedIds inp all_gtm_ids seen_gtms
      let new_gtm_ids := gtm_list ++ sortStr linked_ids
      ({ seen_post_ids := listUnion seen_posts new_post_ids,
         seen_gtm_ids := listUnion seen_gtms new_gtm_ids,
         runs := h.runs ++
           [⟨inp.ts, new_post_ids.length, fresh_gtm_ids.length,
             inp.rev_domains⟩],
         total_domains_found := h.total_domains_found + inp.rev_domains },
       new_gtm_ids)

/-- A sequence of scan cycles over the same ledger. -/
def run_cycles (inps : List ScanInput) (h : WorkLedger) : WorkLedger :=
  inps.foldl (fun acc inp => (run_scan inp acc).1) h

theorem mem_listUnion_left {x : String} {a b : List String} (hx : x ∈ a) :
    x ∈ listUnion a b := by
  simp [listUnion, hx]

theorem run_scan_seen_posts_mono (inp : ScanInput) (h : WorkLedger) :
    ∀ x ∈ h.seen_post_ids, x ∈ (run_scan inp h).1.seen_post_ids := by
  intro x hx
  simp only [run_scan]
  split
  · exact hx
  · split <;> exact mem_listUnion_left hx

theorem run_scan_seen_gtms_mono (inp : ScanInput) (h : WorkLedger) :
    ∀ x ∈ h.seen_gtm_ids, x ∈ (run_scan inp h).1.seen_gtm_ids := by
  intro x hx
  simp only [run_scan]
  split
  · exact hx
  · split
    · exact hx
    · exact mem_listUnion_left hx

theorem mem_sortStr {x : String} {l : List String} :
    x ∈ sortStr l ↔ x ∈ l := List.mem_insertionSort _

/-- Claim C3: ledger monotonicity.  Over any sequence of scan cycles the seen
sets only grow, and a container id already in the seen set at the start of a
cycle is never part of the ids analyzed in that cycle. -/
theorem ledger_monotone_and_no_reprocessing :
    (∀ inp h, ∀ x ∈ h.seen_post_ids, x ∈ (run_scan inp h).1.seen_post_ids) ∧
    (∀ inp h, ∀ x ∈ h.seen_gtm_ids, x ∈ (run_scan inp h).1.seen_gtm_ids) ∧
    (∀ inp h, ∀ g ∈ h.seen_gtm_ids, g ∉ (run_scan inp h).2) ∧
    (∀ inps h, ∀ x ∈ h.seen_post_ids, x ∈ (run_cycles inps h).seen_post_ids) ∧
    (∀ inps h, ∀ x ∈ h.seen_gtm_ids, x ∈ (run_cycles inps h).seen_gtm_ids) := by
  have hposts := run_scan_seen_posts_mono
  have hgtms := run_scan_seen_gtms_mono
  refine ⟨hposts, hgtms, ?_, ?_, ?_⟩
  · intro inp h g hg hmem
    simp only [run_scan] at hmem
    split at hmem
    · simp at hmem
    · split at hmem
      · simp at hmem
      · simp only [List.mem_append, mem_sortStr] at hmem
        rcases hmem with hmem | hmem
        · rw [List.mem_filter] at hmem
          have := hmem.2
          simp [List.elem_iff, hg] at this
        · unfold deepLinkedIds at hmem
          split at hmem
          · rw [List.mem_dedup, List.mem_filter] at hmem
            have := hmem.2
            simp [List.elem_iff, hg] at this
          · simp at hmem
  · intro inps
    induction inps with
    | nil => intro h x hx; exact hx
    | cons i is ih =>
      intro h x hx
      exact ih _ x (run_scan_seen_posts_mono i h x hx)
  · intro inps
    induction inps with
    | nil => intro h x hx; exact hx
    | cons i is ih =>
      intro h x hx
      exact ih _ x (run_scan_seen_gtms_mono i h x hx)

/-- Witness for C3 at a concrete ledger and cycle input. -/
theorem ledger_monotone_witness :
    "GTM-AAAA1111" ∈
      (run_scan ⟨false, [], ["GTM-BBBB2222"], false, [], "t", 0⟩
        ⟨["p1"], ["GTM-AAAA1111"], [], 0⟩).1.seen_gtm_ids ∧
    "GTM-AAAA1111" ∉
      (run_scan ⟨false, [], ["GTM-BBBB2222"], false, [], "t", 0⟩
        ⟨["p1"], ["GTM-AAAA1111"], [], 0⟩).2 :=
  ⟨ledger_monotone_and_no_reprocessing.2.1 _ _ _ (by decide),
   ledger_monotone_and_no_reprocessing.2.2.1 _ _ _ (by decide)⟩

/-! ## FOFA cursor pagination (`FofaCollector._fofa_search`,
src/crawl_gtm.py:2277-2348) -/

/-- A parsed response of the FOFA `/search/next` API: HTTP status, whether the
JSON body carries a truthy `error`/`errmsg` field, the `results` rows, and the
optional `next` continuation token. -/
structure FofaResp where
  status : Nat
  error : Bool
  results : List (List String)
  next : Option String
deriving DecidableEq

/-- Truthiness of `data.get("next")`: present and non-empty
(`if not next_token: break`). -/
def hasNextToken (r : FofaResp) : Bool :=
  match r.next with
  | none => false
  | some t => t ≠ ""

/-- The cursor loop of `FofaCollector._fofa_search`
(src/crawl_gtm.py:2296-2348) over an oracle of successive API responses, one
element per request issued.  Returns the number of requests issued and the
concatenation of the fetched result pages: a non-200 status, an error payload,
or an empty result page stops the loop after the request that produced it; a
missing or empty `next` token stops it after the page is appended; otherwise
the loop re-submits with the token.  An exhausted oracle models a request that
raises (timeout / connection error), which likewise stops the loop. -/
def fofa_search_loop : List FofaResp → Nat × List (List String)
  | [] => (0, [])
  | r :: rest =>
    if r.status ≠ 200 then (1, [])
    else if r.error then (1, [])
    else if r.results = [] then (1, [])
    else if hasNextToken r then
      let p := fofa_search_loop rest
      (p.1 + 1, r.results ++ p.2)
    else (1, r.results)

/-- Claim C5: when the first three responses each carry a non-empty
continuation token and a non-empty result page and the fourth omits the token,
the paginator issues exactly four requests and returns the concatenation of
the four result pages in request order. -/
theorem fofa_pagination_four_requests
    (r0 r1 r2 r3 : FofaResp) (rest : List FofaResp)
    (h0 : r0.status = 200 ∧ r0.error = false ∧ r0.results ≠ [] ∧
      hasNextToken r0 = true)
    (h1 : r1.status = 200 ∧ r1.error = false ∧ r1.results ≠ [] ∧
      hasNextToken r1 = true)
    (h2 : r2.status = 200 ∧ r2.error = false ∧ r2.results ≠ [] ∧
      hasNextToken r2 = true)
    (h3 : r3.status = 200 ∧ r3.error = false ∧ r3.next = none) :
    fofa_search_loop (r0 :: r1 :: r2 :: r3 :: rest) =
      (4, r0.results ++ r1.results ++ r2.results ++ r3.results) := by
  obtain ⟨s0, e0, n0, t0⟩ := h0
  obtain ⟨s1, e1, n1, t1⟩ := h1
  obtain ⟨s2, e2, n2, t2⟩ := h2
  obtain ⟨s3, e3, t3⟩ := h3
  have ht3 : hasNextToken r3 = false := by simp [hasNextToken, t3]
  by_cases hr3 : r3.results = [] <;>
    simp [fofa_search_loop, s0, e0, n0, t0, s1, e1, n1, t1, s2, e2, n2, t2,
      s3, e3, ht3, hr3]

/-- Witness for C5 at a concrete four-response oracle. -/
theorem fofa_pagination_four_requests_witness :
    fofa_search_loop
      [⟨200, false, [["a.com", "https://a.com"]], some "t1"⟩,
       ⟨200, false, [["b.com", "https://b.com"]], some "t2"⟩,
       ⟨200, false, [["c.com", "https://c.com"]], some "t3"⟩,
       ⟨200, false, [["d.com", "https://d.com"]], none⟩] =
      (4, [["a.com", "https://a.com"], ["b.com", "https://b.com"],
           ["c.com", "https://c.com"], ["d.com", "https://d.com"]]) :=
  fofa_pagination_four_requests _ _ _ _ []
    (by refine ⟨rfl, rfl, ?_, rfl⟩; decide)
    (by refine ⟨rfl, rfl, ?_, rfl⟩; decide)
    (by refine ⟨rfl, rfl, ?_, rfl⟩; decide)
    ⟨rfl, rfl, rfl⟩

/-! ## Lowercase stability facts -/

theorem lowerC_not_upper (c : Char) : isUpperC (lowerC c) = false := by
  unfold lowerC
  by_cases h : isUpperC c = true
  · rw [if_pos h]
    have h' : 65 ≤ c.toNat ∧ c.toNat ≤ 90 := by
      simpa [isUpperC, decide_eq_true_eq] using h
    have hv : (c.toNat + 32).isValidChar := Or.inl (by omega)
    have hn : (Char.ofNat (c.toNat + 32)).toNat = c.toNat + 32 := by
      rw [Char.ofNat, dif_pos hv]; rfl
    simp only [isUpperC, hn]
    simp only [Bool.and_eq_false_iff, decide_eq_false_iff_not]
    omega
  · rw [if_neg h]
    simpa using h

theorem lowerC_eq_of_not_upper {c : Char} (h : isUpperC c = false) :
    lowerC c = c := by
  unfold lowerC
  rw [if_neg]
  simp [h]

theorem lowerC_idem (c : Char) : lowerC (lowerC c) = lowerC c :=
  lowerC_eq_of_not_upper (lowerC_not_upper c)

theorem map_self_of_fixed {f : Char → Char} :
    ∀ l : List Char, (∀ c ∈ l, f c = c) → l.map f = l
  | [], _ => rfl
  | c :: cs, h => by
    simp only [List.map_cons, h c (by simp)]
    rw [map_self_of_fixed cs (fun x hx => h x (by simp [hx]))]

theorem mem_of_mem_dropWhile {p : Char → Bool} :
    ∀ {l : List Char} {c : Char}, c ∈ l.dropWhile p → c ∈ l
  | [], _, h => h
  | a :: as, c, h => by
    rw [List.dropWhile_cons] at h
    split at h
    · exact List.mem_cons_of_mem _ (mem_of_mem_dropWhile h)
    · exact h

theorem mem_stripCharsBy {p : Char → Bool} {c : Char} {l : List Char}
    (h : c ∈ stripCharsBy p l) : c ∈ l := by
  unfold stripCharsBy at h
  rw [List.mem_reverse] at h
  have h2 := mem_of_mem_dropWhile h
  rw [List.mem_reverse] at h2
  exact mem_of_mem_dropWhile h2

/-! ## Reverse-lookup aggregation (`GTMReverseLookup.lookup`,
src/crawl_gtm.py:1685-1740) -/

/-- One candidate result row reported by a reverse-lookup source (only the
fields the aggregation logic reads). -/
structure RLEntry where
  domain : String
  source : String
  url : String
deriving DecidableEq

/-- `r.get("domain", "").lower().strip()` (src/crawl_gtm.py:1720). -/
def rlNorm (s : String) : String := pyStrip (pyLower s)

/-- The TLD alternatives of the `valid_tld` regex of `GTMReverseLookup.lookup`
(src/crawl_gtm.py:1714-1718). -/
def RL_VALID_TLD_SUFFIXES : List String :=
  ["com", "net", "org", "io", "co", "br", "de", "fr", "uk", "es", "it", "nl",
   "ru", "cn", "jp", "au", "ca", "in", "mx", "ar", "cl", "pe", "gr", "pl",
   "se", "dk", "no", "mu", "cc",
   "site", "online", "store", "fun", "shop", "app", "dev", "tech", "biz",
   "info", "us", "eu", "pt", "cz", "at", "ch", "be", "fi", "ie", "nz", "za",
   "kr", "tw", "hk", "sg",
   "co.uk", "com.br", "com.au", "co.za", "com.mx", "com.ar", "com.hk",
   "com.co", "com.pe", "com.cl"]

/-- `valid_tld.search(domain)`: the regex is anchored at the end, so the
search succeeds exactly when the domain ends with a dot followed by one of the
listed suffixes. -/
def rlValidTld (d : String) : Bool :=
  RL_VALID_TLD_SUFFIXES.any (fun t => strEndsWith ("." ++ t) d)

/-- The regex `[a-zA-Z0-9][a-zA-Z0-9.-]+[a-zA-Z]` (with the final class
repeated at least twice and both ends anchored) from src/crawl_gtm.py:1726.
A match exists exactly when: the string has at least 4 characters, the first
is alphanumeric, the last two are letters, and everything in between is
alphanumeric, a dot or a hyphen. -/
def rlDomainToken (s : String) : Bool :=
  match s.data with
  | [] => false
  | c :: rest =>
    isAlnumC c && decide (3 ≤ rest.length) &&
      (rest.take (rest.length - 2)).all
        (fun x => isAlnumC x || x = '.' || x = '-') &&
      (rest.drop (rest.length - 2)).all isAlphaC

/-- The `skip` substrings of src/crawl_gtm.py:1729-1734 (search engines,
platforms and the indexing services themselves). -/
def RL_SKIP : List String :=
  ["google.", "bing.", "yahoo.", "duckduckgo.", "youtube.",
   "gstatic.", "googleapis.", "schema.org", "w3.org",
   "twitter.com", "x.com", "facebook.com", "reddit.com",
   "builtwith.com", "publicwww.com", "spyonweb.com",
   "web.archive.org", "doubleclick.net", "googlesyndication.",
   "gmail.com"]

def rlSkipHit (d : String) : Bool := RL_SKIP.any (fun t => substrB t d)

/-- The deduplication/validation loop of `GTMReverseLookup.lookup`
(src/crawl_gtm.py:1710-1740): normalize the domain, skip empty or
already-seen domains, require the TLD regex, the domain-token regex and the
absence of every skip substring, then record the domain as seen and keep the
entry with its normalized domain. -/
def rlDedupAux (seen : List String) : List RLEntry → List RLEntry
  | [] => []
  | r :: rs =>
    let d := rlNorm r.domain
    if d = "" || seen.contains d then rlDedupAux seen rs
    else if !(rlValidTld d) then rlDedupAux seen rs
    else if !(rlDomainToken d) then rlDedupAux seen rs
    else if rlSkipHit d then rlDedupAux seen rs
    else { r with domain := d } :: rlDedupAux (d :: seen) rs

/-- `GTMReverseLookup.lookup` (src/crawl_gtm.py:1685-1740): the per-source
results are concatenated in the fixed source order — BuiltWith, PublicWWW,
SpyOnWeb, Wayback, DuckDuckGo, Google, FOFA — and deduplicated. -/
def GTMReverseLookup_lookup
    (builtwith publicwww spyonweb wayback duckduckgo google fofa :
      List RLEntry) : List RLEntry :=
  rlDedupAux []
    (builtwith ++ publicwww ++ spyonweb ++ wayback ++ duckduckgo ++ google ++
      fofa)

theorem rlDedupAux_mem_props :
    ∀ (seen : List String) (rs : List RLEntry) (e : RLEntry),
      e ∈ rlDedupAux seen rs →
      e.domain ∉ seen ∧ rlValidTld e.domain = true ∧
        rlDomainToken e.domain = true ∧ rlSkipHit e.domain = false
  | _, [], e => by simp [rlDedupAux]
  | seen, r :: rs, e => by
    simp only [rlDedupAux]
    split
    · exact fun h => rlDedupAux_mem_props seen rs e h
    · split
      · exact fun h => rlDedupAux_mem_props seen rs e h
      · split
        · exact fun h => rlDedupAux_mem_props seen rs e h
        · split
          · exact fun h => rlDedupAux_mem_props seen rs e h
          · intro h
            rcases List.mem_cons.mp h with he | he
            · subst he
              rename_i hc1 hc2 hc3 hc4
              simp only [Bool.or_eq_true, not_or, Bool.not_eq_true] at hc1
              simp only [Bool.not_eq_true', Bool.not_eq_false] at hc2 hc3
              refine ⟨?_, hc2, hc3, by simpa using hc4⟩
              intro hmem
              have hmem' : rlNorm r.domain ∈ seen := hmem
              have hcont := hc1.2
              rw [← List.elem_iff] at hmem'
              simp only [List.contains] at hcont
              rw [hcont] at hmem'
              exact Bool.noConfusion hmem'
            · have ih := rlDedupAux_mem_props _ _ _ he
              refine ⟨fun hm => ih.1 (List.mem_cons_of_mem _ hm),
                ih.2.1, ih.2.2.1, ih.2.2.2⟩

theorem rlDedupAux_domains_nodup :
    ∀ (seen : List String) (rs : List RLEntry),
      ((rlDedupAux seen rs).map RLEntry.domain).Nodup
  | _, [] => by simp [rlDedupAux]
  | seen, r :: rs => by
    simp only [rlDedupAux]
    split
    · exact rlDedupAux_domains_nodup seen rs
    · split
      · exact rlDedupAux_domains_nodup seen rs
      · split
        · exact rlDedupAux_domains_nodup seen rs
        · split
          · exact rlDedupAux_domains_nodup seen rs
          · simp only [List.map_cons, List.nodup_cons]
            refine ⟨?_, rlDedupAux_domains_nodup _ rs⟩
            intro hmem
            obtain ⟨e, he, hde⟩ := List.mem_map.mp hmem
            have hprops := (rlDedupAux_mem_props _ _ _ he).1
            exact hprops (hde ▸ List.mem_cons_self _ _)

theorem rlDomainToken_empty : rlDomainToken "" = false := rfl

theorem rlDedupAux_first_wins :
    ∀ (seen : List String) (rs : List RLEntry) (e : RLEntry),
      e ∈ rlDedupAux seen rs →
      ∃ r, rs.find? (fun r' => rlNorm r'.domain == e.domain) = some r ∧
        e = { r with domain := rlNorm r.domain }
  | _, [], e => by simp [rlDedupAux]
  | seen, r :: rs, e => by
    simp only [rlDedupAux]
    split
    · intro h
      rename_i hc1
      have hprops := rlDedupAux_mem_props seen rs e h
      obtain ⟨r0, hfind, heq⟩ := rlDedupAux_first_wins seen rs e h
      refine ⟨r0, ?_, heq⟩
      rw [List.find?_cons_of_neg, hfind]
      simp only [beq_iff_eq]
      intro hd
      simp only [Bool.or_eq_true] at hc1
      rcases hc1 with hc1 | hc1
      · rw [decide_eq_true_eq] at hc1
        rw [hd] at hc1
        have ht := hprops.2.2.1
        rw [hc1] at ht
        exact absurd ht (by rw [rlDomainToken_empty]; simp)
      · rw [List.elem_iff] at hc1
        exact hprops.1 (hd ▸ hc1)
    · split
      · intro h
        rename_i hc1 hc2
        have hprops := rlDedupAux_mem_props seen rs e h
        obtain ⟨r0, hfind, heq⟩ := rlDedupAux_first_wins seen rs e h
        refine ⟨r0, ?_, heq⟩
        rw [List.find?_cons_of_neg, hfind]
        simp only [beq_iff_eq]
        intro hd
        rw [hd] at hc2
        simp [hprops.2.1] at hc2
      · split
        · intro h
          rename_i hc1 hc2 hc3
          have hprops := rlDedupAux_mem_props seen rs e h
          obtain ⟨r0, hfind, heq⟩ := rlDedupAux_first_wins seen rs e h
          refine ⟨r0, ?_, heq⟩
          rw [List.find?_cons_of_neg, hfind]
          simp only [beq_iff_eq]
          intro hd
          rw [hd] at hc3
          simp [hprops.2.2.1] at hc3
        · split
          · intro h
            rename_i hc1 hc2 hc3 hc4
            have hprops := rlDedupAux_mem_props seen rs e h
            obtain ⟨r0, hfind, heq⟩ := rlDedupAux_first_wins seen rs e h
            refine ⟨r0, ?_, heq⟩
            rw [List.find?_cons_of_neg, hfind]
            simp only [beq_iff_eq]
            intro hd
            exact absurd (hd ▸ hc4) (by simp [hprops.2.2.2])
          · intro h
            rcases List.mem_cons.mp h with he | he
            · refine ⟨r, ?_, he⟩
              apply List.find?_cons_of_pos
              simp [he]
            · have hprops := rlDedupAux_mem_props _ _ _ he
              obtain ⟨r0, hfind, heq⟩ := rlDedupAux_first_wins _ rs e he
              refine ⟨r0, ?_, heq⟩
              rw [List.find?_cons_of_neg, hfind]
              simp only [beq_iff_eq]
              intro hd
              exact hprops.1 (hd ▸ List.mem_cons_self _ _)

theorem rlNorm_lower_stable (s : String) : pyLower (rlNorm s) = rlNorm s := by
  unfold rlNorm pyLower pyStrip
  apply congrArg
  apply map_self_of_fixed
  intro c hc
  have hc2 : c ∈ lowerChars s.data := mem_stripCharsBy hc
  obtain ⟨x, _, hx⟩ := List.mem_map.mp hc2
  rw [← hx]
  exact lowerC_idem x

/-- Claim C2: after aggregation the output of a reverse-lookup call contains
no two entries whose domains are equal after lowercasing; every retained entry
passes the TLD suffix check, the domain-token grammar and the
platform-domain denylist; and the kept entry for each domain is the first
entry reporting that domain in the fixed source order. -/
theorem reverse_lookup_dedup_first_wins_validated
    (bw pww spy wb ddg goo fofa : List RLEntry) :
    ((GTMReverseLookup_lookup bw pww spy wb ddg goo fofa).map
        (fun e => pyLower e.domain)).Nodup ∧
    (∀ e ∈ GTMReverseLookup_lookup bw pww spy wb ddg goo fofa,
      rlValidTld e.domain = true ∧ rlDomainToken e.domain = true ∧
        rlSkipHit e.domain = false) ∧
    (∀ e ∈ GTMReverseLookup_lookup bw pww spy wb ddg goo fofa,
      ∃ r, (bw ++ pww ++ spy ++ wb ++ ddg ++ goo ++ fofa).find?
          (fun r' => rlNorm r'.domain == e.domain) = some r ∧
        e = { r with domain := rlNorm r.domain }) := by
  refine ⟨?_, ?_, ?_⟩
  · have hnd := rlDedupAux_domains_nodup []
      (bw ++ pww ++ spy ++ wb ++ ddg ++ goo ++ fofa)
    have hstable : ∀ e ∈ GTMReverseLookup_lookup bw pww spy wb ddg goo fofa,
        pyLower e.domain = e.domain := by
      intro e he
      obtain ⟨r0, _, heq⟩ := rlDedupAux_first_wins _ _ _ he
      rw [heq]
      exact rlNorm_lower_stable r0.domain
    have hmapeq :
        (GTMReverseLookup_lookup bw pww spy wb ddg goo fofa).map
          (fun e => pyLower e.domain) =
        (GTMReverseLookup_lookup bw pww spy wb ddg goo fofa).map
          RLEntry.domain := by
      apply List.map_congr_left
      intro e he
      exact hstable e he
    rw [hmapeq]
    exact hnd
  · intro e he
    have h := rlDedupAux_mem_props _ _ _ he
    exact ⟨h.2.1, h.2.2.1, h.2.2.2⟩
  · intro e he
    exact rlDedupAux_first_wins _ _ _ he

/-- Witness for C2: a BuiltWith row and a PublicWWW row reporting the same
domain (up to case and whitespace) collapse to the single BuiltWith entry. -/
theorem reverse_lookup_dedup_witness :
    GTMReverseLookup_lookup [⟨" EXample.COM ", "builtwith", "u1"⟩]
        [⟨"example.com", "publicwww", "u2"⟩] [] [] [] [] [] =
      [⟨"example.com", "builtwith", "u1"⟩] ∧
    ((GTMReverseLookup_lookup [⟨" EXample.COM ", "builtwith", "u1"⟩]
        [⟨"example.com", "publicwww", "u2"⟩] [] [] [] [] []).map
        (fun e => pyLower e.domain)).Nodup ∧
    rlValidTld "example.com" = true ∧ rlDomainToken "example.com" = true ∧
    rlSkipHit "example.com" = false := by
  have h := reverse_lookup_dedup_first_wins_validated
    [⟨" EXample.COM ", "builtwith", "u1"⟩]
    [⟨"example.com", "publicwww", "u2"⟩] [] [] [] [] []
  have hprops := h.2.1 ⟨"example.com", "builtwith", "u1"⟩ (by decide)
  exact ⟨by decide, h.1, hprops.1, hprops.2.1, hprops.2.2⟩

/-! ## Per-source failure isolation (src/crawl_gtm.py:1685-1998) -/

/-- The observable outcome of one HTTP fetch inside a source function: the
status code, the length of the response text, and the candidate entries that
the source's HTML-parsing step would produce from that response.  The parsing
itself (BeautifulSoup selectors / regexes over the page) is abstracted: the
oracle response carries its parse result. -/
structure HttpResp where
  status : Nat
  textLen : Nat
  entries : List RLEntry
deriving DecidableEq

/-- A fetch outcome: `none` models a raised exception (timeout, connection
error), `some r` a completed response. -/
def FetchOutcome := Option HttpResp

/-- The fetch failed: it raised, or it returned a non-200 status. -/
def fetchFailed : Option HttpResp → Bool
  | none => true
  | some r => r.status ≠ 200

/-- `GTMReverseLookup._search_publicwww` (src/crawl_gtm.py:1860-1889):
entries are gathered only from a 200 response; any exception leaves the
already-gathered (here: empty) result list, which is returned. -/
def search_publicwww : Option HttpResp → List RLEntry
  | none => []
  | some r => if r.status = 200 then r.entries else []

/-- `GTMReverseLookup._search_spyonweb` (src/crawl_gtm.py:1891-1908). -/
def search_spyonweb : Option HttpResp → List RLEntry
  | none => []
  | some r => if r.status = 200 then r.entries else []

/-- `GTMReverseLookup._search_builtwith` (src/crawl_gtm.py:1742-1858): the
authenticated relationships page is used when it answers 200 with more than
500 bytes; if no results were gathered, the unauthenticated trends fallback is
tried, requiring 200 and more than 1000 bytes. -/
def search_builtwith (primary fallback : Option HttpResp) : List RLEntry :=
  let fromPrimary :=
    match primary with
    | none => []
    | some r => if r.status = 200 && r.textLen > 500 then r.entries else []
  if fromPrimary = [] then
    match fallback with
    | none => []
    | some r => if r.status = 200 && r.textLen > 1000 then r.entries else []
  else fromPrimary

/-- `GTMReverseLookup._search_wayback_cdx` (src/crawl_gtm.py:1910-1954). -/
def search_wayback : Option HttpResp → List RLEntry
  | none => []
  | some r => if r.status = 200 then r.entries else []

/-- `GTMReverseLookup._search_duckduckgo` (src/crawl_gtm.py:1956-1982). -/
def search_duckduckgo : Option HttpResp → List RLEntry
  | none => []
  | some r => if r.status = 200 then r.entries else []

/-- `GTMReverseLookup._search_google` (src/crawl_gtm.py:1984-1998). -/
def search_google : Option HttpResp → List RLEntry
  | none => []
  | some r => if r.status = 200 then r.entries else []

/-- `GTMReverseLookup.lookup` assembled from the per-source fetch outcomes:
every source is evaluated in the fixed order, then the combined list is
deduplicated (src/crawl_gtm.py:1685-1740).  The FOFA source result is passed
through as a list (its own tiers are modelled separately). -/
def lookup_from_outcomes (bw1 bw2 opww ospy owb oddg ogoo : Option HttpResp)
    (fofa : List RLEntry) : List RLEntry :=
  GTMReverseLookup_lookup (search_builtwith bw1 bw2) (search_publicwww opww)
    (search_spyonweb ospy) (search_wayback owb) (search_duckduckgo oddg)
    (search_google ogoo) fofa

/-- Claim C6: a failed fetch (exception or non-200 response) makes the
affected source function return the empty list instead of propagating, and
the aggregator still combines the remaining sources' results, so a single
source failure never aborts the lookup. -/
theorem source_failure_isolated
    (bw1 bw2 opww ospy owb oddg ogoo : Option HttpResp)
    (fofa : List RLEntry) :
    (fetchFailed opww = true → search_publicwww opww = []) ∧
    (fetchFailed ospy = true → search_spyonweb ospy = []) ∧
    (fetchFailed bw1 = true → fetchFailed bw2 = true →
      search_builtwith bw1 bw2 = []) ∧
    (fetchFailed opww = true →
      lookup_from_outcomes bw1 bw2 opww ospy owb oddg ogoo fofa =
        rlDedupAux []
          (search_builtwith bw1 bw2 ++ [] ++ search_spyonweb ospy ++
            search_wayback owb ++ search_duckduckgo oddg ++
            search_google ogoo ++ fofa)) := by
  have hpw : fetchFailed opww = true → search_publicwww opww = [] := by
    intro h
    match opww with
    | none => rfl
    | some r =>
      simp only [fetchFailed, ne_eq, decide_eq_true_eq] at h
      simp [search_publicwww, h]
  refine ⟨hpw, ?_, ?_, ?_⟩
  · intro h
    match ospy with
    | none => rfl
    | some r =>
      simp only [fetchFailed, ne_eq, decide_eq_true_eq] at h
      simp [search_spyonweb, h]
  · intro h1 h2
    match bw1, bw2 with
    | none, none => rfl
    | none, some r2 =>
      simp only [fetchFailed, ne_eq, decide_eq_true_eq] at h2
      simp [search_builtwith, h2]
    | some r1, none =>
      simp only [fetchFailed, ne_eq, decide_eq_true_eq] at h1
      simp [search_builtwith, h1]
    | some r1, some r2 =>
      simp only [fetchFailed, ne_eq, decide_eq_true_eq] at h1 h2
      simp [search_builtwith, h1, h2]
  · intro h
    rw [lookup_from_outcomes, hpw h, GTMReverseLookup_lookup]

/-- Witness for C6: with the PublicWWW fetch raising and SpyOnWeb answering
503, the lookup still returns the BuiltWith result. -/
theorem source_failure_isolated_witness :
    search_publicwww none = [] ∧
    search_spyonweb (some ⟨503, 10, [⟨"spy.com", "spyonweb", "u"⟩]⟩) = [] ∧
    lookup_from_outcomes
        (some ⟨200, 600, [⟨"kept.com", "builtwith", "u"⟩]⟩) none none
        (some ⟨503, 10, [⟨"spy.com", "spyonweb", "u"⟩]⟩) none none none [] =
      [⟨"kept.com", "builtwith", "u"⟩] := by
  have h := source_failure_isolated
    (some ⟨200, 600, [⟨"kept.com", "builtwith", "u"⟩]⟩) none none
    (some ⟨503, 10, [⟨"spy.com", "spyonweb", "u"⟩]⟩) none none none []
  refine ⟨h.1 (by decide), h.2.1 (by decide), ?_⟩
  rw [h.2.2.2 (by decide)]
  decide

/-! ## FOFA reverse lookup with multi-tier fallback
(`FofaCollector.reverse_lookup`, src/crawl_gtm.py:2506-2576;
`fofa_web_search` / `fofa_web_reverse_lookup`, src/crawl_gtm.py:2082-2234) -/

/-- The suffix of the character list after the first occurrence of `pat`,
if any. -/
def afterSub (pat : List Char) : List Char → Option (List Char)
  | [] => if listStartsWith pat [] then some [] else none
  | c :: cs =>
    if listStartsWith pat (c :: cs) then some ((c :: cs).drop pat.length)
    else afterSub pat cs

/-- `urllib.parse.urlparse(url).hostname` for scheme-carrying URLs: the part
between `://` and the next `/`, `?` or `#`, with any userinfo (up to the last
`@`) and any `:port` suffix removed, lowercased; empty when the URL has no
`://`. -/
def urlparseHostname (url : String) : String :=
  match afterSub ("://".data) url.data with
  | none => ""
  | some rest =>
    let netloc := rest.takeWhile (fun c => !(c = '/' || c = '?' || c = '#'))
    let hostinfo := (netloc.reverse.takeWhile (fun c => !(c = '@'))).reverse
    let host := hostinfo.takeWhile (fun c => !(c = ':'))
    pyLower ⟨host⟩

/-- The domain normalization of the FOFA API result rows
(src/crawl_gtm.py:2549-2551): `host.split(":")[0].lower().strip()`, and if the
result still starts with `http`, the scheme prefix is removed and everything
after the first slash dropped. -/
def fofaHostDomain (host : String) : String :=
  let d0 := pyStrip (pyLower ⟨(splitOnChar ':' host.data).headD []⟩)
  if strStartsWith "http" d0 then
    let d1 :=
      if strStartsWith "https://" d0 then ⟨d0.data.drop 8⟩
      else if strStartsWith "http://" d0 then ⟨(d0.data.drop 7 : List Char)⟩
      else d0
    ⟨(splitOnChar '/' d1.data).headD []⟩
  else d0

/-- One row of the FOFA API (`fields="host,link"`): keep the normalized
domain when it is non-empty, dotted, longer than 3 characters and unseen
(src/crawl_gtm.py:2545-2558). -/
def fofaRowEntry (seen : List String) (row : List String) :
    Option (String × RLEntry) :=
  let host := row.headD ""
  let link := (row.drop 1).headD ""
  if host = "" then none
  else
    let domain := fofaHostDomain host
    if domain ≠ "" && substrB "." domain && decide (3 < domain.data.length) &&
        !(seen.contains domain) then
      some (domain,
        ⟨domain, "fofa", if link ≠ "" then link else "https://" ++ domain⟩)
    else none

def fofaProcessRows : List (List String) → List String → List RLEntry →
    List String × List RLEntry
  | [], seen, acc => (seen, acc)
  | row :: rows, seen, acc =>
    match fofaRowEntry seen row with
    | some (d, e) => fofaProcessRows rows (d :: seen) (acc ++ [e])
    | none => fofaProcessRows rows seen acc

/-- The per-query cursor loop of `FofaCollector.reverse_lookup`
(src/crawl_gtm.py:2532-2567), identical in structure to
`GTMReverseLookup._search_fofa` (src/crawl_gtm.py:2029-2066).  Returns the
unconsumed responses, the updated seen set and accumulator, and the
`api_failed` flag.  Exhausting the oracle models a raised request
(`except Exception: api_failed = True`). -/
def fofaRLQuery : List FofaResp → List String → List RLEntry →
    List FofaResp × List String × List RLEntry × Bool
  | [], seen, acc => ([], seen, acc, true)
  | r :: rest, seen, acc =>
    if r.status ≠ 200 then (rest, seen, acc, true)
    else if r.error then (rest, seen, acc, true)
    else
      let p := fofaProcessRows r.results seen acc
      if hasNextToken r then fofaRLQuery rest p.1 p.2
      else (rest, p.1, p.2, false)

/-- The outer loop over the three query shapes (`body=`, `header=`, plain),
sharing the seen set and stopping at the first failed query
(src/crawl_gtm.py:2520-2570). -/
def fofaRLQueries : Nat → List FofaResp → List String → List RLEntry →
    List RLEntry × Bool
  | 0, _, _, acc => (acc, false)
  | n + 1, oracle, seen, acc =>
    let q := fofaRLQuery oracle seen acc
    if q.2.2.2 then (q.2.2.1, true)
    else fofaRLQueries n q.1 q.2.1 q.2.2.1

/-- One scraped FOFA web result page: HTTP status, whether the body signals
the `-3000` rate limit, and the parsed host links (link text, href). -/
structure WebPage where
  status : Nat
  rateLimited : Bool
  hostLinks : List (String × String)
deriving DecidableEq

/-- One kept row of `fofa_web_search` (src/crawl_gtm.py:2182-2188). -/
structure WebHit where
  host : String
  domain : String
  url : String
  ip : String
deriving DecidableEq

/-- IPv4-shaped domain test (`re.match` of four 1-3 digit groups). -/
def isIpv4Like (s : String) : Bool :=
  let parts := splitOnChar '.' s.data
  parts.length = 4 &&
    parts.all (fun p => p ≠ [] && p.length ≤ 3 && p.all isDigitC)

/-- Per-page link processing of `fofa_web_search`
(src/crawl_gtm.py:2161-2189). -/
def fofaWebPageStep : List (String × String) → List String → List WebHit →
    List String × List WebHit
  | [], seen, acc => (seen, acc)
  | (text, href0) :: links, seen, acc =>
    let href := pyStrip href0
    if href = "" || substrB "fofa.info" href then
      fofaWebPageStep links seen acc
    else
      let url := if strStartsWith "http" href then href
        else "https://" ++ href
      let domain := urlparseHostname url
      if domain = "" || seen.contains domain then
        fofaWebPageStep links seen acc
      else
        let ip := if isIpv4Like domain then domain else ""
        fofaWebPageStep links (domain :: seen)
          (acc ++ [⟨if text ≠ "" then text else domain, domain, url, ip⟩])

/-- The page loop of `fofa_web_search` (src/crawl_gtm.py:2111-2206): at most
`max_pages` pages are fetched; a non-200 status, a rate-limit marker, a page
with no parsed host links or a page contributing no new result stops the
loop.  Returns the number of page requests issued and the accumulated
results. -/
def fofa_web_search_loop : Nat → List WebPage → List String → List WebHit →
    Nat × List WebHit
  | 0, _, _, acc => (0, acc)
  | _ + 1, [], _, acc => (0, acc)
  | n + 1, p :: ps, seen, acc =>
    if p.status ≠ 200 then (1, acc)
    else if p.rateLimited then (1, acc)
    else if p.hostLinks = [] then (1, acc)
    else
      let step := fofaWebPageStep p.hostLinks seen []
      if step.2 = [] then (1, acc)
      else
        let r := fofa_web_search_loop n ps step.1 (acc ++ step.2)
        (r.1 + 1, r.2)

def fofa_web_search (maxPages : Nat) (pages : List WebPage) :
    Nat × List WebHit :=
  fofa_web_search_loop maxPages pages [] []

/-- The per-hit filter of `fofa_web_reverse_lookup`
(src/crawl_gtm.py:2221-2229). -/
def fofaWebRLFilter : List WebHit → List String → List RLEntry →
    List String × List RLEntry
  | [], seen, acc => (seen, acc)
  | h :: hs, seen, acc =>
    let domain := pyStrip (pyLower h.domain)
    if domain ≠ "" && !(seen.contains domain) && substrB "." domain &&
        decide (3 < domain.data.length) then
      fofaWebRLFilter hs (domain :: seen)
        (acc ++ [⟨domain, "fofa-web",
          if h.url ≠ "" then h.url else "https://" ++ domain⟩])
    else fofaWebRLFilter hs seen acc

/-- `fofa_web_reverse_lookup` (src/crawl_gtm.py:2209-2234): a body query and
a plain-text fallback query, each scraped with `max_pages=1`; the second is
only issued when the first yields nothing.  Returns the number of page
requests issued and the results. -/
def fofa_web_reverse_lookup (pages1 pages2 : List WebPage) :
    Nat × List RLEntry :=
  let w1 := fofa_web_search 1 pages1
  let f1 := fofaWebRLFilter w1.2 [] []
  if f1.2 ≠ [] then (w1.1, f1.2)
  else
    let w2 := fofa_web_search 1 pages2
    let f2 := fofaWebRLFilter w2.2 f1.1 f1.2
    (w1.1 + w2.1, f2.2)

/-- The observable outcome of `FofaCollector.reverse_lookup`: the entries
returned, whether the web-scraping tier was invoked, and how many page
requests that tier issued. -/
structure FofaRLOutcome where
  entries : List RLEntry
  webInvoked : Bool
  webRequests : Nat
deriving DecidableEq

/-- `FofaCollector.reverse_lookup` (src/crawl_gtm.py:2506-2576): without an
API key the web scraper is used directly; otherwise the three API queries
run, and the web scraper is used only when the API failed AND no results were
gathered. -/
def FofaCollector_reverse_lookup (apiKey : String) (oracle : List FofaResp)
    (pages1 pages2 : List WebPage) : FofaRLOutcome :=
  if apiKey = "" then
    let w := fofa_web_reverse_lookup pages1 pages2
    ⟨w.2, true, w.1⟩
  else
    let q := fofaRLQueries 3 oracle [] []
    if q.2 && q.1 = [] then
      let w := fofa_web_reverse_lookup pages1 pages2
      ⟨w.2, true, w.1⟩
    else ⟨q.1, false, 0⟩

/-- Counterexample to C9 as stated: the first API query succeeds with one
result, the second query's request answers HTTP 500 — the authenticated tier
thus fails with a non-200 response — yet the engine does NOT fall back to
scraping, because results were already gathered
(`if api_failed and not results`, src/crawl_gtm.py:2573). -/
theorem fofa_fallback_counterexample :
    (⟨500, false, [], none⟩ : FofaResp).status ≠ 200 ∧
    (FofaCollector_reverse_lookup "k"
        [⟨200, false, [["example.com", "https://example.com"]], none⟩,
         ⟨500, false, [], none⟩] [] []).webInvoked = false ∧
    (FofaCollector_reverse_lookup "k"
        [⟨200, false, [["example.com", "https://example.com"]], none⟩,
         ⟨500, false, [], none⟩] [] []).entries =
      [⟨"example.com", "fofa", "https://example.com"⟩] := by
  refine ⟨by decide, ?_, ?_⟩ <;> decide

theorem fofa_web_search_loop_le :
    ∀ (n : Nat) (ps : List WebPage) (seen : List String) (acc : List WebHit),
      (fofa_web_search_loop n ps seen acc).1 ≤ n
  | 0, _, _, _ => Nat.le_refl 0
  | _ + 1, [], _, _ => Nat.zero_le _
  | n + 1, p :: ps, seen, acc => by
    simp only [fofa_web_search_loop]
    split
    · omega
    · split
      · omega
      · split
        · omega
        · split
          · omega
          · have := fofa_web_search_loop_le n ps
              (fofaWebPageStep p.hostLinks seen []).1
              (acc ++ (fofaWebPageStep p.hostLinks seen []).2)
            omega

/-- Claim C9 (amended): when no API credential is configured, or when the
authenticated tier fails having produced no results, the engine falls back to
the web-scraping tier; and that tier is bounded to at most two page fetches
(one page per fallback query). -/
theorem fofa_fallback_tiers (apiKey : String) (oracle : List FofaResp)
    (p1 p2 : List WebPage) :
    (apiKey = "" →
      (FofaCollector_reverse_lookup apiKey oracle p1 p2).webInvoked = true) ∧
    ((fofaRLQueries 3 oracle [] []).2 = true →
      (fofaRLQueries 3 oracle [] []).1 = [] →
      (FofaCollector_reverse_lookup apiKey oracle p1 p2).webInvoked = true) ∧
    (fofa_web_reverse_lookup p1 p2).1 ≤ 2 := by
  refine ⟨?_, ?_, ?_⟩
  · intro h
    simp [FofaCollector_reverse_lookup, h]
  · intro hf hr
    by_cases hk : apiKey = ""
    · simp [FofaCollector_reverse_lookup, hk]
    · simp [FofaCollector_reverse_lookup, hk, hf, hr]
  · simp only [fofa_web_reverse_lookup]
    have h1 : (fofa_web_search 1 p1).1 ≤ 1 := fofa_web_search_loop_le 1 p1 [] []
    have h2 : (fofa_web_search 1 p2).1 ≤ 1 := fofa_web_search_loop_le 1 p2 [] []
    split
    · omega
    · simp only
      omega

/-- Witness for C9 (amended) at concrete inputs: an empty API key invokes the
scraping tier, and the scraping tier issues at most two page fetches. -/
theorem fofa_fallback_tiers_witness :
    (FofaCollector_reverse_lookup "" [] [] []).webInvoked = true ∧
    (fofa_web_reverse_lookup
        [⟨200, false, [("a", "https://a.com")]⟩]
        [⟨200, false, [("b", "https://b.com")]⟩]).1 ≤ 2 := by
  have h := fofa_fallback_tiers "" []
    [⟨200, false, [("a", "https://a.com")]⟩]
    [⟨200, false, [("b", "https://b.com")]⟩]
  exact ⟨(fofa_fallback_tiers "" [] [] []).1 rfl, h.2.2⟩

/-! ## Tracking-id extraction (`extract_all_tracking_ids`,
src/crawl_gtm.py:1271-1278; `GTMAnalyzer._extract_tracking_ids`,
src/crawl_gtm.py:1475-1480) -/

/-- Case-insensitive literal prefix test (for `re.IGNORECASE` literals). -/
def startsWithCI (pat cs : List Char) : Bool :=
  listStartsWith (lowerChars pat) (lowerChars (cs.take pat.length))

/-- Left-to-right, non-overlapping scan for `PREFIX[cls]` patterns with a
greedy counted repetition of `mn` to `mx` class characters, i.e. the
semantics of `re.findall` for the GTM / GA / AW id patterns
(src/crawl_gtm.py:64-67).  The fuel argument is the remaining input length. -/
def scanIdAux (pre : List Char) (cls : Char → Bool) (mn mx : Nat) :
    Nat → List Char → List String
  | 0, _ => []
  | _ + 1, [] => []
  | fuel + 1, c :: cs =>
    if startsWithCI pre (c :: cs) then
      let after := (c :: cs).drop pre.length
      let run := (after.takeWhile cls).take mx
      if mn ≤ run.length then
        (⟨(c :: cs).take pre.length ++ run⟩ : String) ::
          scanIdAux pre cls mn mx fuel ((c :: cs).drop (pre.length + run.length))
      else scanIdAux pre cls mn mx fuel cs
    else scanIdAux pre cls mn mx fuel cs

/-- `GTM_ID_PATTERN.findall`: `GTM-` then 4 to 12 alphanumerics,
case-insensitive. -/
def gtmFindall (s : String) : List String :=
  scanIdAux "GTM-".data isAlnumC 4 12 s.data.length s.data

/-- `GA_ID_PATTERN.findall`: `G-` then 6 to 12 alphanumerics. -/
def gaFindall (s : String) : List String :=
  scanIdAux "G-".data isAlnumC 6 12 s.data.length s.data

/-- `AW_ID_PATTERN.findall`: `AW-` then 6 to 12 digits. -/
def awFindall (s : String) : List String :=
  scanIdAux "AW-".data isDigitC 6 12 s.data.length s.data

/-- `UA_ID_PATTERN.findall`: `UA-` then 4 to 12 digits, a dash, then 1 to 4
digits.  Because the first digit run is followed by a literal dash, a match
requires the maximal digit run to have length 4 to 12 with a dash right after
it; the trailing run is greedy up to 4 digits. -/
def uaScanAux : Nat → List Char → List String
  | 0, _ => []
  | _ + 1, [] => []
  | fuel + 1, c :: cs =>
    if startsWithCI ("UA-".data) (c :: cs) then
      let after := (c :: cs).drop 3
      let r1 := after.takeWhile isDigitC
      if 4 ≤ r1.length && r1.length ≤ 12 &&
          ((after.drop r1.length).take 1 = ['-']) then
        let r2 := ((after.drop (r1.length + 1)).takeWhile isDigitC).take 4
        if 1 ≤ r2.length then
          (⟨(c :: cs).take 3 ++ r1 ++ ['-'] ++ r2⟩ : String) ::
            uaScanAux fuel ((c :: cs).drop (3 + r1.length + 1 + r2.length))
        else uaScanAux fuel cs
      else uaScanAux fuel cs
    else uaScanAux fuel cs

def uaFindall (s : String) : List String := uaScanAux s.data.length s.data

/-- The four id families of `extract_all_tracking_ids`
(src/crawl_gtm.py:1271-1278); each is a Python `set` of the upper-cased
matches, modelled as a deduplicated list. -/
structure TrackingIds where
  gtm : List String
  ga4 : List String
  ua : List String
  aw : List String
deriving DecidableEq

def extract_all_tracking_ids (text : String) : TrackingIds :=
  { gtm := ((gtmFindall text).map pyUpper).dedup,
    ga4 := ((gaFindall text).map pyUpper).dedup,
    ua := ((uaFindall text).map pyUpper).dedup,
    aw := ((awFindall text).map pyUpper).dedup }

/-- `GTMAnalyzer._extract_tracking_ids` (src/crawl_gtm.py:1475-1480): the
container's own id is discarded from the GTM set, then each non-empty family
is stored sorted under its key. -/
def extract_tracking_ids_field (gtm_id js : String) :
    List (String × List String) :=
  let ids := extract_all_tracking_ids js
  let gtmSet := ids.gtm.filter (fun t => t ≠ gtm_id)
  (if gtmSet ≠ [] then [("GTM", sortStr gtmSet)] else []) ++
  (if ids.ga4 ≠ [] then [("GA4", sortStr ids.ga4)] else []) ++
  (if ids.ua ≠ [] then [("UA", sortStr ids.ua)] else []) ++
  (if ids.aw ≠ [] then [("AW", sortStr ids.aw)] else [])

/-- Claim C4: a container's own identifier never appears in the GTM
linked-identifier set of its own tracking-id mapping, for every content
string — no matter how often the identifier occurs in the content. -/
theorem tracking_id_self_exclusion (gtm_id js : String) :
    ∀ l, ("GTM", l) ∈ extract_tracking_ids_field gtm_id js → gtm_id ∉ l := by
  intro l hl hmem
  simp only [extract_tracking_ids_field, List.mem_append] at hl
  rcases hl with ((hl | hl) | hl) | hl
  · split at hl
    · rw [List.mem_singleton] at hl
      have hleq : l = sortStr ((extract_all_tracking_ids js).gtm.filter
          (fun t => t ≠ gtm_id)) := (Prod.mk.injEq _ _ _ _ ▸ hl).2
      rw [hleq, mem_sortStr, List.mem_filter] at hmem
      simp at hmem
    · simp at hl
  · split at hl
    · rw [List.mem_singleton] at hl
      exact absurd (Prod.mk.injEq _ _ _ _ ▸ hl).1 (by decide)
    · simp at hl
  · split at hl
    · rw [List.mem_singleton] at hl
      exact absurd (Prod.mk.injEq _ _ _ _ ▸ hl).1 (by decide)
    · simp at hl
  · split at hl
    · rw [List.mem_singleton] at hl
      exact absurd (Prod.mk.injEq _ _ _ _ ▸ hl).1 (by decide)
    · simp at hl

/-- Witness for C4: a container content mentioning its own id twice plus a
linked container keeps only the linked id. -/
theorem tracking_id_self_exclusion_witness :
    extract_tracking_ids_field "GTM-ABCD1234"
        "gtm.js?id=GTM-ABCD1234 gtm-abcd1234 and GTM-WXYZ5678" =
      [("GTM", ["GTM-WXYZ5678"])] ∧
    "GTM-ABCD1234" ∉ (["GTM-WXYZ5678"] : List String) :=
  ⟨by decide,
   tracking_id_self_exclusion "GTM-ABCD1234"
     "gtm.js?id=GTM-ABCD1234 gtm-abcd1234 and GTM-WXYZ5678"
     ["GTM-WXYZ5678"] (by decide)⟩

/-! ## Extraction engine (`GTMAnalyzer._extract_domains` and friends,
src/crawl_gtm.py:1372-1563) -/

/-- The characters admitted by `URL_PATTERN`'s negated class
(src/crawl_gtm.py:91): everything except whitespace, quotes, angle brackets,
braces (code points 123/125), pipe, backslash, caret, code point 96, and
square brackets. -/
def urlAllowedC (c : Char) : Bool :=
  !(isSpaceC c || c = '\'' || c = '"' || c = '<' || c = '>' ||
    c.toNat = 123 || c.toNat = 125 || c = '|' || c.toNat = 92 || c = '^' ||
    c.toNat = 96 || c = '[' || c = ']')

/-- Length of a case-sensitive `https://` or `http://` prefix, if present. -/
def httpPrefixLen (t : List Char) : Option Nat :=
  if listStartsWith ("https://".data) t then some 8
  else if listStartsWith ("http://".data) t then some 7
  else none

/-- Case-insensitive variant (for patterns compiled with `re.IGNORECASE`). -/
def httpPrefixLenCI (t : List Char) : Option Nat :=
  if startsWithCI ("https://".data) t then some 8
  else if startsWithCI ("http://".data) t then some 7
  else none

/-- `URL_PATTERN.finditer`: a scheme followed by a non-empty greedy run of
allowed characters; matches are non-overlapping and left to right. -/
def urlScanAux : Nat → List Char → List String
  | 0, _ => []
  | _ + 1, [] => []
  | fuel + 1, c :: cs =>
    let t := c :: cs
    match httpPrefixLen t with
    | some n =>
      let run := (t.drop n).takeWhile urlAllowedC
      if run ≠ [] then
        (⟨t.take n ++ run⟩ : String) :: urlScanAux fuel (t.drop (n + run.length))
      else urlScanAux fuel cs
    | none => urlScanAux fuel cs

def urlFindall (s : String) : List String := urlScanAux s.data.length s.data

/-- `url.rstrip("'\")}];,")` (src/crawl_gtm.py:1378): strip the characters
quote, double quote, close paren, close brace (code point 125), close
bracket, semicolon and comma from the right end. -/
def rstripUrl (s : String) : String :=
  ⟨(s.data.reverse.dropWhile (fun c =>
      c = '\'' || c = '"' || c = ')' || c.toNat = 125 || c = ']' ||
      c = ';' || c = ',')).reverse⟩

/-- Characters of the quoted-domain token class `[a-zA-Z0-9.\-]`. -/
def domTokenC (c : Char) : Bool := isAlnumC c || c = '.' || c = '-'

/-- Whether a full character run matches
`[a-zA-Z0-9][a-zA-Z0-9\-]*(\.[a-zA-Z0-9][a-zA-Z0-9\-]*)+` exactly: at least
two dot-separated labels, each starting alphanumeric with alphanumeric or
hyphen continuation. -/
def domainGroupFull (run : List Char) : Bool :=
  let parts := splitOnChar '.' run
  2 ≤ parts.length && parts.all (fun p =>
    match p with
    | [] => false
    | c :: rest => isAlnumC c && rest.all (fun x => isAlnumC x || x = '-'))

/-- Method 2 of `_extract_domains` (src/crawl_gtm.py:1390): quoted strings
that look like domains.  Since the token class excludes quotes, a match at a
quote exists exactly when the maximal token run after it is a full domain
group and is immediately followed by a quote (of either kind). -/
def quotedScanAux : Nat → List Char → List String
  | 0, _ => []
  | _ + 1, [] => []
  | fuel + 1, c :: cs =>
    if c = '"' || c = '\'' then
      let run := cs.takeWhile domTokenC
      let after := cs.drop run.length
      if run ≠ [] && domainGroupFull run &&
          (after.take 1 = ['"'] || after.take 1 = ['\'']) then
        (⟨run⟩ : String) :: quotedScanAux fuel (after.drop 1)
      else quotedScanAux fuel cs
    else quotedScanAux fuel cs

def quotedFindall (s : String) : List String :=
  quotedScanAux s.data.length s.data

/-- Greedy `(\.[a-zA-Z0-9][a-zA-Z0-9\-]*)*` repetition. -/
def greedyDotLabels : Nat → List Char → List Char
  | 0, _ => []
  | fuel + 1, cs =>
    match cs with
    | '.' :: c :: rest =>
      if isAlnumC c then
        let lbl := rest.takeWhile (fun x => isAlnumC x || x = '-')
        '.' :: c :: (lbl ++ greedyDotLabels fuel (rest.drop lbl.length))
      else []
    | _ => []

/-- Greedy match of `[a-zA-Z0-9][a-zA-Z0-9\-]*(\.[a-zA-Z0-9][a-zA-Z0-9\-]*)+`
at the head of the input, if any. -/
def greedyDomainGroup (cs : List Char) : Option (List Char) :=
  match cs with
  | [] => none
  | c :: rest =>
    if isAlnumC c then
      let lbl := rest.takeWhile (fun x => isAlnumC x || x = '-')
      let tail := greedyDotLabels rest.length (rest.drop lbl.length)
      if tail = [] then none
      else some (c :: (lbl ++ tail))
    else none

/-- Method 3 of `_extract_domains` (src/crawl_gtm.py:1396): protocol-relative
`//host` references. -/
def protoRelScanAux : Nat → List Char → List String
  | 0, _ => []
  | _ + 1, [] => []
  | fuel + 1, c :: cs =>
    if c = '/' && cs.take 1 = ['/'] then
      match greedyDomainGroup (cs.drop 1) with
      | some grp =>
        (⟨grp⟩ : String) :: protoRelScanAux fuel ((cs.drop 1).drop grp.length)
      | none => protoRelScanAux fuel cs
    else protoRelScanAux fuel cs

def protoRelFindall (s : String) : List String :=
  protoRelScanAux s.data.length s.data

/-- `IGNORE_DOMAINS` (src/crawl_gtm.py:142-148). -/
def IGNORE_DOMAINS : List String :=
  ["www.googletagmanager.com", "googletagmanager.com",
   "www.google.com", "google.com",
   "fonts.googleapis.com", "fonts.gstatic.com",
   "www.gstatic.com", "gstatic.com",
   "maps.googleapis.com", "maps.google.com"]

/-- `GTMAnalyzer._extract_domains` (src/crawl_gtm.py:1372-1404): harvest
hosts from full URLs, quoted dotted tokens and protocol-relative URLs,
validate each, collect them as a set, subtract the ignore list and sort. -/
def extract_domains (js : String) : List String :=
  let m1 := (urlFindall js).filterMap (fun u =>
    let host := urlparseHostname (rstripUrl u)
    if host ≠ "" then
      let h := pyStripDots (pyLower host)
      if is_valid_domain h then some h else none
    else none)
  let m2 := (quotedFindall js).filterMap (fun cand =>
    let h := pyStripDots (pyLower cand)
    if is_valid_domain h then some h else none)
  let m3 := (protoRelFindall js).filterMap (fun cand =>
    let h := pyStripDots (pyLower cand)
    if is_valid_domain h then some h else none)
  sortStr (((m1 ++ m2 ++ m3).dedup).filter
    (fun d => !(IGNORE_DOMAINS.contains d)))

/-- The URL set of `GTMAnalyzer._extract_urls` (src/crawl_gtm.py:1452-1459):
stripped URL matches longer than 15 characters that are not the container's
own loader (`googletagmanager.com/gtm.js`). -/
def extract_urls_raw (js : String) : List String :=
  ((urlFindall js).map rstripUrl).filter (fun u =>
    decide (15 < u.data.length) && !(substrB "googletagmanager.com/gtm.js" u))

def result_urls (js : String) : List String :=
  sortStr (extract_urls_raw js).dedup

/-- Script classification (src/crawl_gtm.py:1461-1463). -/
def result_scripts (js : String) : List String :=
  sortStr ((extract_urls_raw js).dedup.filter (fun u =>
    strEndsWith ".js" u || strEndsWith ".min.js" u))

/-- Pixel/tracking keywords (src/crawl_gtm.py:1465-1473). -/
def PIXEL_KEYWORDS : List String :=
  ["pixel", "track", "/tr?", "collect?", "beacon",
   "event?", "analytics", "log?", "ping?"]

def result_pixels (js : String) : List String :=
  sortStr ((extract_urls_raw js).dedup.filter (fun u =>
    PIXEL_KEYWORDS.any (fun k => substrB k (pyLower u))))

/-- `SERVICE_SIGNATURES` (src/crawl_gtm.py:106-140). -/
def SERVICE_SIGNATURES : List (String × List String) :=
  [("google-analytics", ["google-analytics.com", "analytics.google.com",
     "www.googletagmanager.com"]),
   ("google-ads", ["googleads.g.doubleclick.net", "googleadservices.com",
     "googlesyndication.com"]),
   ("facebook-pixel", ["connect.facebook.net", "facebook.com/tr",
     "www.facebook.com"]),
   ("hotjar", ["static.hotjar.com", "hotjar.com", "vars.hotjar.com"]),
   ("linkedin-insight", ["snap.licdn.com", "linkedin.com"]),
   ("tiktok-pixel", ["analytics.tiktok.com", "tiktok.com"]),
   ("pinterest-tag", ["s.pinimg.com", "ct.pinterest.com"]),
   ("bing-ads", ["bat.bing.com", "bing.com"]),
   ("twitter-pixel", ["static.ads-twitter.com", "analytics.twitter.com",
     "t.co"]),
   ("clarity", ["clarity.ms", "www.clarity.ms"]),
   ("hubspot", ["js.hs-scripts.com", "js.hs-analytics.net", "hubspot.com"]),
   ("segment", ["cdn.segment.com", "api.segment.io"]),
   ("amplitude", ["cdn.amplitude.com", "api.amplitude.com"]),
   ("mixpanel", ["cdn.mxpnl.com", "api.mixpanel.com"]),
   ("heap", ["cdn.heapanalytics.com", "heapanalytics.com"]),
   ("fullstory", ["fullstory.com", "rs.fullstory.com"]),
   ("crazyegg", ["script.crazyegg.com", "crazyegg.com"]),
   ("optimizely", ["cdn.optimizely.com", "logx.optimizely.com"]),
   ("pardot", ["pi.pardot.com", "pardot.com"]),
   ("marketo", ["munchkin.marketo.net", "marketo.com"]),
   ("intercom", ["widget.intercom.io", "intercom.io"]),
   ("drift", ["js.driftt.com", "drift.com"]),
   ("crisp", ["client.crisp.chat", "crisp.chat"]),
   ("zendesk", ["static.zdassets.com", "zendesk.com"]),
   ("freshchat", ["wchat.freshchat.com", "freshchat.com"]),
   ("mouseflow", ["cdn.mouseflow.com", "mouseflow.com"]),
   ("lucky-orange", ["d10lpsik1i8c69.cloudfront.net", "luckyorange.com"]),
   ("matomo", ["matomo.cloud", "cdn.matomo.cloud"]),
   ("plausible", ["plausible.io"]),
   ("cloudflare", ["cdnjs.cloudflare.com", "cloudflare.com"]),
   ("recaptcha", ["www.google.com/recaptcha", "www.gstatic.com/recaptcha"]),
   ("stripe", ["js.stripe.com", "m.stripe.network"]),
   ("paypal", ["www.paypal.com", "www.paypalobjects.com"])]

/-- `GTMAnalyzer._detect_services` (src/crawl_gtm.py:1482-1495): a service is
detected when one of its signatures occurs in the space-joined concatenation
of the extracted domains and URLs.  (No signature contains a space, so the
join order of the underlying Python sets is irrelevant.) -/
def detect_services (domains urls : List String) : List String :=
  let combined := String.intercalate " " domains ++ " " ++
    String.intercalate " " urls
  sortStr ((SERVICE_SIGNATURES.filter (fun p =>
    p.2.any (fun sig => substrB sig combined))).map Prod.fst)

def detect_services_of (js : String) : List String :=
  detect_services (extract_domains js) (result_urls js)

/-- `\w` or dot, the class of data-layer variable names. -/
def wordDotC (c : Char) : Bool := isWordC c || c = '.'

/-- First data-layer pattern (src/crawl_gtm.py:1530): literal `dataLayer`,
one of dot or open bracket, a quote, then a non-empty name. -/
def dlScanAux : Nat → List Char → List String
  | 0, _ => []
  | _ + 1, [] => []
  | fuel + 1, c :: cs =>
    let t := c :: cs
    if listStartsWith ("dataLayer".data) t then
      match t.drop 9 with
      | b :: q :: rest =>
        if (b = '.' || b = '[') && (q = '"' || q = '\'') then
          let run := rest.takeWhile wordDotC
          if run ≠ [] then
            (⟨run⟩ : String) :: dlScanAux fuel (rest.drop run.length)
          else dlScanAux fuel cs
        else dlScanAux fuel cs
      | _ => dlScanAux fuel cs
    else dlScanAux fuel cs

def dlFindall (s : String) : List String := dlScanAux s.data.length s.data

/-- Second data-layer pattern (src/crawl_gtm.py:1533): `"key" : "name"` with
optional whitespace around the colon. -/
def keyScanAux : Nat → List Char → List String
  | 0, _ => []
  | _ + 1, [] => []
  | fuel + 1, c :: cs =>
    let t := c :: cs
    if listStartsWith ("\"key\"".data) t then
      let after := t.drop 5
      let a2 := after.dropWhile isSpaceC
      match a2 with
      | ':' :: a3 =>
        let a4 := a3.dropWhile isSpaceC
        match a4 with
        | '"' :: a5 =>
          let run := a5.takeWhile wordDotC
          if run ≠ [] && (a5.drop run.length).take 1 = ['"'] then
            (⟨run⟩ : String) :: keyScanAux fuel ((a5.drop run.length).drop 1)
          else keyScanAux fuel cs
        | _ => keyScanAux fuel cs
      | _ => keyScanAux fuel cs
    else keyScanAux fuel cs

def keyFindall (s : String) : List String := keyScanAux s.data.length s.data

/-- `GTMAnalyzer._extract_datalayer_vars` (src/crawl_gtm.py:1526-1538):
both patterns, with key-macro names kept only when they are not in the
reserved `gtm.` namespace and longer than 2 characters; the set is sorted. -/
def data_layer_vars (js : String) : List String :=
  pySortedSet (dlFindall js ++
    (keyFindall js).filter (fun v =>
      !(strStartsWith "gtm." v) && decide (2 < v.data.length)))

/-- The negated class `[^\s"\'<>]` of the interesting-string URL patterns. -/
def apiAllowedC (c : Char) : Bool :=
  !(isSpaceC c || c = '"' || c = '\'' || c = '<' || c = '>')

/-- `pat` occurs in the list at a position with at least one character before
it and at least one character after it. -/
def subWithTail (pat : List Char) : List Char → Bool
  | [] => false
  | c :: cs =>
    (listStartsWith pat (c :: cs) && decide (pat.length < (c :: cs).length)) ||
      subWithTail pat cs

def hasProperInfix (pat run : List Char) : Bool :=
  match run with
  | [] => false
  | _ :: rest => subWithTail pat rest

/-- API-endpoint pattern (src/crawl_gtm.py:1545): a URL whose allowed-run
contains `/api/` with content on both sides; the greedy match always extends
to the end of the run. -/
def apiScanAux : Nat → List Char → List String
  | 0, _ => []
  | _ + 1, [] => []
  | fuel + 1, c :: cs =>
    let t := c :: cs
    match httpPrefixLen t with
    | some n =>
      let run := (t.drop n).takeWhile apiAllowedC
      if hasProperInfix ("/api/".data) run then
        (⟨t.take n ++ run⟩ : String) :: apiScanAux fuel (t.drop (n + run.length))
      else apiScanAux fuel cs
    | none => apiScanAux fuel cs

def apiFindall (s : String) : List String := apiScanAux s.data.length s.data

/-- Webhook pattern (src/crawl_gtm.py:1549), case-insensitive: a URL whose
allowed-run contains `webhook` anywhere (including at either end). -/
def webhookScanAux : Nat → List Char → List String
  | 0, _ => []
  | _ + 1, [] => []
  | fuel + 1, c :: cs =>
    let t := c :: cs
    match httpPrefixLenCI t with
    | some n =>
      let run := (t.drop n).takeWhile apiAllowedC
      if listContainsSub ("webhook".data) (lowerChars run) then
        (⟨t.take n ++ run⟩ : String) ::
          webhookScanAux fuel (t.drop (n + run.length))
      else webhookScanAux fuel cs
    | none => webhookScanAux fuel cs

def webhookFindall (s : String) : List String :=
  webhookScanAux s.data.length s.data

def emailLocalC (c : Char) : Bool :=
  isWordC c || c = '.' || c = '+' || c = '-'

def emailDomC (c : Char) : Bool := isWordC c || c = '-'

def emailTailC (c : Char) : Bool := isWordC c || c = '.' || c = '-'

/-- Email pattern `[\w.+-]+@[\w-]+\.[\w.-]+` (src/crawl_gtm.py:1553). -/
def emailScanAux : Nat → List Char → List String
  | 0, _ => []
  | _ + 1, [] => []
  | fuel + 1, c :: cs =>
    let t := c :: cs
    if emailLocalC c then
      let lrun := t.takeWhile emailLocalC
      match t.drop lrun.length with
      | '@' :: a2 =>
        let drun := a2.takeWhile emailDomC
        if drun ≠ [] then
          match a2.drop drun.length with
          | '.' :: a4 =>
            let trun := a4.takeWhile emailTailC
            if trun ≠ [] then
              (⟨lrun ++ '@' :: (drun ++ '.' :: trun)⟩ : String) ::
                emailScanAux fuel (a4.drop trun.length)
            else emailScanAux fuel cs
          | _ => emailScanAux fuel cs
        else emailScanAux fuel cs
      | _ => emailScanAux fuel cs
    else emailScanAux fuel cs

def emailFindall (s : String) : List String :=
  emailScanAux s.data.length s.data

/-- Candidate API keys (src/crawl_gtm.py:1557): 32 or more alphanumerics
between quotes. -/
def keyCandScanAux : Nat → List Char → List String
  | 0, _ => []
  | _ + 1, [] => []
  | fuel + 1, c :: cs =>
    if c = '"' || c = '\'' then
      let run := cs.takeWhile isAlnumC
      let after := cs.drop run.length
      if 32 ≤ run.length && (after.take 1 = ['"'] || after.take 1 = ['\'']) then
        (⟨run⟩ : String) :: keyCandScanAux fuel (after.drop 1)
      else keyCandScanAux fuel cs
    else keyCandScanAux fuel cs

def keyCandFindall (s : String) : List String :=
  keyCandScanAux s.data.length s.data

/-- Python `str.isdigit` on ASCII alphanumeric strings. -/
def pyIsDigitStr (s : String) : Bool := s.data ≠ [] && s.data.all isDigitC

/-- Python `str.islower` on ASCII alphanumeric strings: at least one letter
and no uppercase letter. -/
def pyIsLowerStr (s : String) : Bool :=
  s.data.any isAlphaC && s.data.all (fun c => !(isUpperC c))

def takeStr (n : Nat) (s : String) : String := ⟨s.data.take n⟩

/-- `GTMAnalyzer._extract_interesting_strings` (src/crawl_gtm.py:1540-1563):
API endpoints, webhook URLs, email addresses and candidate keys, each tagged
and truncated, sorted as a set and capped at 30. -/
def extract_interesting_strings (js : String) : List String :=
  let api := (apiFindall js).map (fun m => "API: " ++ takeStr 200 m)
  let wh := (webhookFindall js).map (fun m => "Webhook: " ++ takeStr 200 m)
  let em := (emailFindall js).map (fun m => "Email: " ++ m)
  let keys := ((keyCandFindall js).filter (fun v =>
    !(pyIsDigitStr v) && !(pyIsLowerStr v))).map
    (fun v => "Key?: " ++ takeStr 60 v)
  (pySortedSet (api ++ wh ++ em ++ keys)).take 30

/-- Counterexample to C7 as stated: a content blob that contains both
reference substrings, but not as URLs — extraction harvests hosts only from
full URLs, quoted dotted tokens and protocol-relative references
(src/crawl_gtm.py:1372-1399), so the domain set stays empty and the Facebook
Pixel service is not detected. -/
theorem extraction_scenario_counterexample :
    substrB "googletagmanager.com/gtm.js?id=GTM-ABC123"
      "googletagmanager.com/gtm.js?id=GTM-ABC123 connect.facebook.net/tr" =
      true ∧
    substrB "connect.facebook.net/tr"
      "googletagmanager.com/gtm.js?id=GTM-ABC123 connect.facebook.net/tr" =
      true ∧
    "connect.facebook.net" ∉ extract_domains
      "googletagmanager.com/gtm.js?id=GTM-ABC123 connect.facebook.net/tr" ∧
    "facebook-pixel" ∉ detect_services_of
      "googletagmanager.com/gtm.js?id=GTM-ABC123 connect.facebook.net/tr" := by
  refine ⟨by decide, by decide, by decide, by decide⟩

/-- Claim C7 (amended): for a content blob in which the container loader and
the Facebook reference occur as full URLs, extraction produces a domain set
containing `connect.facebook.net`, excluding `googletagmanager.com` and
`www.googletagmanager.com` (ignore-listed), and service detection includes
the Facebook Pixel tag. -/
theorem extraction_scenario_amended :
    extract_domains
      "https://www.googletagmanager.com/gtm.js?id=GTM-ABC123 https://connect.facebook.net/tr" =
      ["connect.facebook.net"] ∧
    "googletagmanager.com" ∉ extract_domains
      "https://www.googletagmanager.com/gtm.js?id=GTM-ABC123 https://connect.facebook.net/tr" ∧
    "www.googletagmanager.com" ∉ extract_domains
      "https://www.googletagmanager.com/gtm.js?id=GTM-ABC123 https://connect.facebook.net/tr" ∧
    "facebook-pixel" ∈ detect_services_of
      "https://www.googletagmanager.com/gtm.js?id=GTM-ABC123 https://connect.facebook.net/tr" := by
  refine ⟨by decide, by decide, by decide, by decide⟩

/-- Claim C8: extraction is idempotent — on identical content it returns
identical records — and the domain, URL, script, pixel, data-layer-variable
and interesting-string collections are emitted in sorted order. -/
theorem extraction_idempotent_and_sorted (js : String) :
    (extract_domains js = extract_domains js ∧
     result_urls js = result_urls js ∧
     result_scripts js = result_scripts js ∧
     result_pixels js = result_pixels js ∧
     data_layer_vars js = data_layer_vars js ∧
     extract_interesting_strings js = extract_interesting_strings js) ∧
    List.Sorted StrLeR (extract_domains js) ∧
    List.Sorted StrLeR (result_urls js) ∧
    List.Sorted StrLeR (result_scripts js) ∧
    List.Sorted StrLeR (result_pixels js) ∧
    List.Sorted StrLeR (data_layer_vars js) ∧
    List.Sorted StrLeR (extract_interesting_strings js) := by
  refine ⟨⟨rfl, rfl, rfl, rfl, rfl, rfl⟩, ?_, ?_, ?_, ?_, ?_, ?_⟩
  · exact List.sorted_insertionSort _ _
  · exact List.sorted_insertionSort _ _
  · exact List.sorted_insertionSort _ _
  · exact List.sorted_insertionSort _ _
  · exact List.sorted_insertionSort _ _
  · exact List.Pairwise.sublist (List.take_sublist _ _)
      (List.sorted_insertionSort _ _)

end CrawlGTM
